import Mathlib

set_option maxHeartbeats 1000000

namespace BookManager

/-- JSON values, the payload and response representation used by the Flask app
(request.get_json input and jsonify output). Strings are modelled as lists of
characters. -/
inductive J where
  | null : J
  | str : List Char → J
  | num : Int → J
  | arr : List J → J
  | obj : List (List Char × J) → J

/-- Persisted Book row (models.Book after the store has assigned its integer
primary key). `published_date` and `summary` are nullable columns. -/
structure PBook where
  id : Nat
  title : List Char
  author : List Char
  published_date : Option (List Char)
  summary : Option (List Char)
deriving DecidableEq, Repr

/-- In-memory Book object as built by `Book(title=..., author=..., ...)` before
the store assigns an id (its id attribute is still None). -/
structure NewBook where
  title : List Char
  author : List Char
  published_date : Option (List Char)
  summary : Option (List Char)
deriving DecidableEq, Repr

/-- The relational store: an autoincrement counter plus the Book table. -/
structure Store where
  nextId : Nat
  rows : List PBook
deriving DecidableEq, Repr

/-- Book.query.get(book_id): fetch a row by primary key. -/
def Store.find (st : Store) (book_id : Nat) : Option PBook :=
  st.rows.find? (fun b => b.id == book_id)

/-- db.session.add(new_book); db.session.commit(): persist one row, the store
assigning the next id. Returns the updated store and the assigned id. -/
def Store.insert (st : Store) (nb : NewBook) : Store × Nat :=
  ({ nextId := st.nextId + 1,
     rows := st.rows ++ [⟨st.nextId, nb.title, nb.author, nb.published_date, nb.summary⟩] },
   st.nextId)

/-- Helper of bulk persistence: assign consecutive ids starting at n. -/
def assignIds : Nat → List NewBook → List PBook
  | _, [] => []
  | n, nb :: nbs => ⟨n, nb.title, nb.author, nb.published_date, nb.summary⟩ :: assignIds (n + 1) nbs

/-- db.session.bulk_save_objects(new_books); db.session.commit(): persist all
rows in one batch. The in-memory NewBook objects are NOT refreshed with the
assigned ids (bulk_save_objects does not populate primary keys by default). -/
def Store.bulkSave (st : Store) (nbs : List NewBook) : Store :=
  { nextId := st.nextId + nbs.length, rows := st.rows ++ assignIds st.nextId nbs }

/-- Key list of a JSON object (empty for non-objects); used to state response
shapes. -/
def J.keys : J → List (List Char)
  | .obj fs => fs.map (fun kv => kv.1)
  | _ => []

/-- ValidationError from errors.py: carries a message and a status code that
defaults to 400. -/
structure VErr where
  message : List Char
  status_code : Nat := 400
deriving DecidableEq, Repr

/-- The uniform error envelope produced by the error translator. -/
def errorEnvelope (msg : List Char) : J := .obj [("error".data, .str msg)]

/-- handle_validation_error from errors.py: jsonify({"error": e.message}),
e.status_code. -/
def handle_validation_error (e : VErr) : J × Nat :=
  (errorEnvelope e.message, e.status_code)

/-- Marshmallow 3 error message for a missing required field. -/
def msgRequired : List Char := "Missing data for required field.".data
/-- Marshmallow 3 error message for a non-string value in a Str field. -/
def msgNotStr : List Char := "Not a valid string.".data
/-- Marshmallow 3 error message for null in a field with allow_none=False. -/
def msgNull : List Char := "Field may not be null.".data
/-- Marshmallow message of validate.Length(min=1, max=100). -/
def msgLength : List Char := "Length must be between 1 and 100.".data
/-- Marshmallow message of validate.Regexp on mismatch. -/
def msgRegexp : List Char := "String does not match expected pattern.".data
/-- Marshmallow 3 message for a field not declared in the schema (the default
unknown=RAISE behaviour). -/
def msgUnknown : List Char := "Unknown field.".data
/-- Marshmallow 3 schema-level message for a non-object payload. -/
def msgInvalidInput : List Char := "Invalid input type.".data

/-- Check of validate.Length(min=1, max=100) on title and author. -/
def lengthCheck (s : List Char) : List (List Char) :=
  if 1 ≤ s.length && s.length ≤ 100 then [] else [msgLength]

/-- Shape check of the anchored published_date regexp: four digits, a dash,
two digits, a dash, two digits (validate.Regexp with re.match; digits are
modelled as ASCII digits). -/
def isDateFormat (s : List Char) : Bool :=
  match s with
  | [y1, y2, y3, y4, h1, m1, m2, h2, d1, d2] =>
      y1.isDigit && y2.isDigit && y3.isDigit && y4.isDigit && h1 == '-' &&
      m1.isDigit && m2.isDigit && h2 == '-' && d1.isDigit && d2.isDigit
  | _ => false

/-- Check applied to the optional published_date field. -/
def dateCheck (s : List Char) : List (List Char) :=
  if isDateFormat s then [] else [msgRegexp]

/-- Validation of one fields.Str schema field against the payload object:
required presence, null rejection, string typing, then the field's validator.
Returns the per-field error entries (empty when the field is valid). -/
def validateStrField (req : Bool) (check : List Char → List (List Char))
    (fs : List (List Char × J)) (name : List Char) :
    List (List Char × List (List Char)) :=
  match fs.lookup name with
  | none => if req then [(name, [msgRequired])] else []
  | some .null => [(name, [msgNull])]
  | some (.str s) =>
      match check s with
      | [] => []
      | ms => [(name, ms)]
  | some _ => [(name, [msgNotStr])]

/-- Field names the schema accepts on load. id is dump_only, so it is NOT a
load field: an "id" key in input counts as unknown. -/
def loadFieldNames : List (List Char) :=
  ["title".data, "author".data, "published_date".data, "summary".data]

/-- Unknown-field errors: marshmallow 3's default unknown=RAISE reports every
payload key that is not a load field with an "Unknown field." error. -/
def unknownErrs (fs : List (List Char × J)) : List (List Char × List (List Char)) :=
  (fs.filter (fun kv => !(loadFieldNames.contains kv.1))).map
    (fun kv => (kv.1, [msgUnknown]))

/-- BookSchema().validate(data) from schemas.py under marshmallow 3: returns
the (field, messages) error entries, empty when the payload is valid. Fields
are processed in declaration order, then unknown keys in payload order; a
non-object payload yields the schema-level "Invalid input type." error. -/
def validateBook : J → List (List Char × List (List Char))
  | .obj fs =>
      validateStrField true lengthCheck fs "title".data ++
      validateStrField true lengthCheck fs "author".data ++
      validateStrField false dateCheck fs "published_date".data ++
      validateStrField false (fun _ => []) fs "summary".data ++
      unknownErrs fs
  | _ => [("_schema".data, [msgInvalidInput])]

/-- String-valued field lookup in a payload: data.get(name) for a field that
validation has established to be a string when present. -/
def getStrField (p : J) (name : List Char) : Option (List Char) :=
  match p with
  | .obj fs =>
      match fs.lookup name with
      | some (.str s) => some s
      | _ => none
  | _ => none

/-- Construction of the in-memory Book object from a payload that passed
validation: title and author are read directly, published_date and summary
via data.get (absent means None). -/
def mkNewBook (p : J) : NewBook :=
  { title := (getStrField p "title".data).getD []
    author := (getStrField p "author".data).getD []
    published_date := getStrField p "published_date".data
    summary := getStrField p "summary".data }

/-- Python str() of one marshmallow message list (a bracketed,
comma-separated list of quoted messages). -/
def pyStrList (ms : List (List Char)) : List Char :=
  "[".data ++ List.intercalate ", ".data (ms.map (fun m => "\x27".data ++ m ++ "\x27".data)) ++ "]".data

/-- Python str() of the marshmallow error dict, as interpolated into
ValidationError(str(errors)). -/
def strOfErrors (errs : List (List Char × List (List Char))) : List Char :=
  "\x7b".data ++
    List.intercalate ", ".data
      (errs.map (fun fe => "\x27".data ++ fe.1 ++ "\x27: ".data ++ pyStrList fe.2)) ++
  "\x7d".data

/-- Message str(e) of the werkzeug NotFound raised by Book.query.get_or_404. -/
def notFoundMessage : List Char :=
  "404 Not Found: The requested URL was not found on the server. If you entered the URL manually please check your spelling and try again.".data

/-- SQL LIKE pattern matching, case-insensitive (ILIKE): '%' matches any
(possibly empty) character sequence, '_' matches exactly one character, any
other pattern character matches one character up to ASCII case folding
(SQLite's default LIKE/lower are ASCII-only, as is Char.toLower). No escape
character (SQLAlchemy's ilike emits no ESCAPE clause and SQLite defines
none by default). First argument is the pattern, second the string. -/
def likeMatch : List Char → List Char → Bool
  | [], s => s.isEmpty
  | c :: ps, s =>
    if c = '%' then
      likeMatch ps s ||
        (match s with
         | [] => false
         | _ :: s' => likeMatch (c :: ps) s')
    else
      match s with
      | [] => false
      | d :: s' => (c == '_' || c.toLower == d.toLower) && likeMatch ps s'
  termination_by p s => (s.length, p.length)
  decreasing_by
  · apply Prod.Lex.right; simp
  · apply Prod.Lex.left; simp
  · apply Prod.Lex.left; simp

/-- Column ILIKE '%' || q || '%' as produced by cls.title.ilike(f"%{query}%")
in Book.search; a NULL column (None summary) never matches. -/
def colIlike (col : Option (List Char)) (q : List Char) : Bool :=
  match col with
  | none => false
  | some s => likeMatch ('%' :: q ++ ['%']) s

/-- Book.search from models.py: title ILIKE %q% OR author ILIKE %q% OR
summary ILIKE %q%. -/
def searchMatch (q : List Char) (b : PBook) : Bool :=
  colIlike (some b.title) q || colIlike (some b.author) q || colIlike b.summary q

/-- Case-insensitive prefix test: q is a prefix of s up to ASCII case
folding. Used to phrase what a pure substring search would do. -/
def isSubAt : List Char → List Char → Bool
  | [], _ => true
  | _ :: _, [] => false
  | c :: q, d :: s => c.toLower == d.toLower && isSubAt q s

/-- Case-insensitive substring test: s contains q as a contiguous substring
up to ASCII case folding (first argument the searched string, second the
needle). -/
def ciContains : List Char → List Char → Bool
  | [], q => isSubAt q []
  | d :: s', q => isSubAt q (d :: s') || ciContains s' q

/-- Sort fields accepted by the list endpoint's parser (choices of the sort
argument). -/
inductive SortField where
  | title
  | author
  | published_date
deriving DecidableEq, Repr

/-- Sort orders accepted by the parser; asc is the default. -/
inductive Order where
  | asc
  | desc
deriving DecidableEq, Repr

/-- Lexicographic comparison of character lists by code point, the BINARY
collation SQLite applies to text columns. -/
def chLe : List Char → List Char → Bool
  | [], _ => true
  | _ :: _, [] => false
  | c :: cs, d :: ds =>
    if c = d then chLe cs ds else decide (c.val < d.val)

/-- Comparison of a nullable sort key: SQLite orders NULLs before all values
in ascending order. -/
def optLe : Option (List Char) → Option (List Char) → Bool
  | none, _ => true
  | some _, none => false
  | some a, some b => chLe a b

/-- Sort key extraction for getattr(Book, sort_field). -/
def sortKey : SortField → PBook → Option (List Char)
  | .title, b => some b.title
  | .author, b => some b.author
  | .published_date, b => b.published_date

/-- Row ordering used by query.order_by: the selected column ascending, or
reversed for .desc(). -/
def rowLe (f : SortField) (o : Order) (a b : PBook) : Bool :=
  match o with
  | .asc => optLe (sortKey f a) (sortKey f b)
  | .desc => optLe (sortKey f b) (sortKey f a)

/-- Sorted insertion of one row, the helper of the insertion sort modelling
ORDER BY. -/
def insertRow (le : PBook → PBook → Bool) (b : PBook) : List PBook → List PBook
  | [] => [b]
  | c :: cs => if le b c then b :: c :: cs else c :: insertRow le b cs

/-- Stable sort of the result rows modelling query.order_by. -/
def sortRows (le : PBook → PBook → Bool) : List PBook → List PBook
  | [] => []
  | b :: bs => insertRow le b (sortRows le bs)

/-- Result of query.paginate(page=..., per_page=..., error_out=False): the
requested page slice, the total row count ignoring pagination, and the total
page count ceil(total / per_page) (flask-sqlalchemy's Pagination.items,
.total and .pages). -/
structure PageResult where
  items : List PBook
  total : Nat
  pages : Nat
deriving DecidableEq, Repr

/-- Pagination slice: with error_out=False an out-of-range page produces an
empty item list rather than an error. The claims only concern positive page
and per_page, the values the parser defaults produce. -/
def paginate (rows : List PBook) (page per_page : Nat) : PageResult :=
  { items := (rows.drop ((page - 1) * per_page)).take per_page
    total := rows.length
    pages := (rows.length + per_page - 1) / per_page }

/-- Parsed list-request parameters with the reqparse defaults (page 1,
per_page 10, order asc, no sort, no search). -/
structure ListParams where
  page : Nat := 1
  per_page : Nat := 10
  sort : Option SortField := none
  order : Order := .asc
  q : Option (List Char) := none
deriving DecidableEq, Repr

/-- Search stage of the list handler: `if search_query:` applies Book.search
only when q is present and non-empty (Python's falsy empty string). -/
def filteredRows (rows : List PBook) (p : ListParams) : List PBook :=
  match p.q with
  | some qq => if qq.isEmpty then rows else rows.filter (searchMatch qq)
  | none => rows

/-- Sort stage of the list handler: order_by only when a sort field was
given. -/
def sortedRows (rows : List PBook) (p : ListParams) : List PBook :=
  match p.sort with
  | some f => sortRows (rowLe f p.order) rows
  | none => rows

/-- Serialized Book as produced by BookSchema().dump: id is None on an
in-memory object the store never refreshed. -/
structure DumpedBook where
  id : Option Nat
  title : List Char
  author : List Char
  published_date : Option (List Char)
  summary : Option (List Char)
deriving DecidableEq, Repr

/-- Dump of a persisted row (id is present). -/
def dumpP (b : PBook) : DumpedBook :=
  { id := some b.id, title := b.title, author := b.author,
    published_date := b.published_date, summary := b.summary }

/-- Dump of an in-memory NewBook whose id attribute is still None. -/
def dumpNew (nb : NewBook) : DumpedBook :=
  { id := none, title := nb.title, author := nb.author,
    published_date := nb.published_date, summary := nb.summary }

/-- Body of the 200 list response assembled by BookList.get. -/
structure ListResult where
  data : List DumpedBook
  page : Nat
  per_page : Nat
  total_pages : Nat
  total_items : Nat
  search_query : Option (List Char)
deriving DecidableEq, Repr

/-- Core of BookList.get from app.py: search filter, optional sort,
pagination, response assembly (search_query echoed only when non-empty). -/
def listCore (rows : List PBook) (p : ListParams) : ListResult :=
  let pg := paginate (sortedRows (filteredRows rows p) p) p.page p.per_page
  { data := pg.items.map dumpP
    page := p.page
    per_page := p.per_page
    total_pages := pg.pages
    total_items := pg.total
    search_query :=
      match p.q with
      | some qq => if qq.isEmpty then none else some qq
      | none => none }

/-- Natural number as a JSON number. -/
def jNat (n : Nat) : J := .num (Int.ofNat n)

/-- Nullable string as a JSON value. -/
def jOptStr : Option (List Char) → J
  | some s => .str s
  | none => .null

/-- JSON rendering of a dumped book, key order following the schema's field
declaration order. -/
def dumpJ (b : DumpedBook) : J :=
  .obj [("id".data, match b.id with | some n => jNat n | none => .null),
        ("title".data, .str b.title),
        ("author".data, .str b.author),
        ("published_date".data, jOptStr b.published_date),
        ("summary".data, jOptStr b.summary)]

/-- JSON rendering of the list response envelope of BookList.get. -/
def listResultJ (r : ListResult) : J :=
  .obj [("status".data, .str "success".data),
        ("data".data, .arr (r.data.map dumpJ)),
        ("page".data, jNat r.page),
        ("per_page".data, jNat r.per_page),
        ("total_pages".data, jNat r.total_pages),
        ("total_items".data, jNat r.total_items),
        ("search_query".data, jOptStr r.search_query)]

/-- The response cache: a key-value store of full responses (body and
status), as flask-caching keeps them. Entries live until deleted or until the
300 s TTL expires; the scenarios below all happen within one TTL, so expiry
is not modelled. -/
abbrev Cache := List (List Char × (J × Nat))

/-- Cache lookup by key. -/
def cacheGet (c : Cache) (k : List Char) : Option (J × Nat) :=
  (c.find? (fun kv => kv.1 == k)).map (fun kv => kv.2)

/-- Cache population by key (overwriting any previous entry). -/
def cacheSet (c : Cache) (k : List Char) (v : J × Nat) : Cache :=
  (k, v) :: c.filter (fun kv => !(kv.1 == k))

/-- cache.delete(k): removal of one key. -/
def cacheDelete (c : Cache) (k : List Char) : Cache :=
  c.filter (fun kv => !(kv.1 == k))

/-- Name of a sort field as it appears in the query string. -/
def sortFieldName : SortField → List Char
  | .title => "title".data
  | .author => "author".data
  | .published_date => "published_date".data

/-- Cache key of cache.cached(timeout=300, query_string=True) on
BookList.get: flask-caching derives it from the request path and the sorted
query-string arguments, so distinct search/sort/page combinations get
distinct keys and the key never equals the bare string "books". Modelled as
the path followed by a canonical sorted rendering of the parameters. -/
def listCacheKey (p : ListParams) : List Char :=
  "/books?order=".data ++
    (match p.order with | .asc => "asc".data | .desc => "desc".data) ++
  "&page=".data ++ (Nat.repr p.page).data ++
  "&per_page=".data ++ (Nat.repr p.per_page).data ++
  (match p.q with | none => [] | some qq => "&q=".data ++ qq) ++
  (match p.sort with | none => [] | some f => "&sort=".data ++ sortFieldName f)

/-- Cache key of cache.cached with key_prefix "book" on BookResource.get:
flask-caching uses a non-callable key_prefix containing no %s placeholder
verbatim as the cache key, so the key is the constant string "book"
whatever the book id is. -/
def singleBookCacheKey (_book_id : Nat) : List Char := "book".data

/-- Key deleted by the update and delete handlers: the literal "book"
followed by the decimal book id (the f-string interpolation they perform). -/
def singleDeleteKey (book_id : Nat) : List Char :=
  "book".data ++ (Nat.repr book_id).data

/-- Body of BookResource.get: Book.query.get_or_404 either finds the row and
returns the success envelope with 200, or raises NotFound — which the
handler's blanket `except Exception` catches and re-raises as
ValidationError(str(e)), whose status_code is the default 400. -/
def getBookBody (st : Store) (book_id : Nat) : Except VErr (J × Nat) :=
  match st.find book_id with
  | none => .error { message := notFoundMessage }
  | some b =>
      .ok (.obj [("status".data, .str "success".data),
                 ("data".data, dumpJ (dumpP b))], 200)

/-- BookResource.get behind cache.cached with key_prefix "book", followed by the
app-level error translator: a cache hit returns the stored response; a miss
runs the body, caching a successful response (an exception propagates
uncached and is translated). -/
def getBookCached (st : Store) (c : Cache) (book_id : Nat) : (J × Nat) × Cache :=
  match cacheGet c (singleBookCacheKey book_id) with
  | some v => (v, c)
  | none =>
      match getBookBody st book_id with
      | .ok resp => (resp, cacheSet c (singleBookCacheKey book_id) resp)
      | .error e => (handle_validation_error e, c)

/-- BookList.get behind cache.cached(query_string=True): a hit returns the
cached list response; a miss computes listCore and populates the cache. -/
def listCached (st : Store) (c : Cache) (p : ListParams) : (J × Nat) × Cache :=
  match cacheGet c (listCacheKey p) with
  | some v => (v, c)
  | none =>
      let resp := (listResultJ (listCore st.rows p), 200)
      (resp, cacheSet c (listCacheKey p) resp)

/-- Core of BookList.post: validate, then persist one row (the store assigns
the id) and dump the committed object, whose refreshed id is included. On
validation failure the handler raises ValidationError(str(errors)). -/
def createCore (st : Store) (p : J) :
    Except (List (List Char × List (List Char))) (DumpedBook × Store) :=
  match validateBook p with
  | [] =>
      let nb := mkNewBook p
      .ok (dumpP ⟨st.nextId, nb.title, nb.author, nb.published_date, nb.summary⟩,
           (st.insert nb).1)
  | errs => .error errs

/-- BookList.post route including the error translator. Note: this handler
performs no cache access at all (app.py's create has no invalidation). -/
def createBook (st : Store) (p : J) : (J × Nat) × Store :=
  match createCore st p with
  | .ok (d, st') =>
      ((.obj [("status".data, .str "success".data),
              ("message".data, .str "Book created successfully".data),
              ("data".data, dumpJ d)], 201), st')
  | .error errs => (handle_validation_error { message := strOfErrors errs }, st)

/-- BookResource.put: get_or_404 (NotFound re-raised as a 400
ValidationError by the blanket except, see getBookBody), full-schema
validation of the payload, merge of provided fields over the existing row
(data.get of each field with the old value as default), commit, then
cache.delete of the "book" + id key and of the "books" key. -/
def updateBook (st : Store) (c : Cache) (book_id : Nat) (p : J) :
    (J × Nat) × Store × Cache :=
  match st.find book_id with
  | none => (handle_validation_error { message := notFoundMessage }, st, c)
  | some book =>
      match validateBook p with
      | [] =>
          let book' : PBook :=
            { book with
              title := (getStrField p "title".data).getD book.title
              author := (getStrField p "author".data).getD book.author
              published_date :=
                match getStrField p "published_date".data with
                | some s => some s
                | none => book.published_date
              summary :=
                match getStrField p "summary".data with
                | some s => some s
                | none => book.summary }
          let st' := { st with rows := st.rows.map (fun b => if b.id == book_id then book' else b) }
          let c' := cacheDelete (cacheDelete c (singleDeleteKey book_id)) "books".data
          ((.obj [("status".data, .str "success".data),
                  ("message".data, .str "Book updated successfully".data),
                  ("data".data, dumpJ (dumpP book'))], 200), st', c')
      | errs => (handle_validation_error { message := strOfErrors errs }, st, c)

/-- BookResource.delete: get_or_404 (NotFound re-raised as a 400
ValidationError by the blanket except), row removal, commit, then
cache.delete of the "book" + id key and of the "books" key. -/
def deleteBook (st : Store) (c : Cache) (book_id : Nat) :
    (J × Nat) × Store × Cache :=
  match st.find book_id with
  | none => (handle_validation_error { message := notFoundMessage }, st, c)
  | some _ =>
      let st' := { st with rows := st.rows.filter (fun b => !(b.id == book_id)) }
      let c' := cacheDelete (cacheDelete c (singleDeleteKey book_id)) "books".data
      ((.obj [("status".data, .str "success".data),
              ("message".data, .str "Book deleted successfully".data)], 200), st', c')

/-- Validation loop of BulkBookOperations.post: each item is validated
independently; failing items are recorded as (index, field errors), valid
items become in-memory Book objects, both in payload order. -/
def bulkScan : Nat → List J → List (Nat × List (List Char × List (List Char))) × List NewBook
  | _, [] => ([], [])
  | i, d :: ds =>
      let rest := bulkScan (i + 1) ds
      match validateBook d with
      | [] => (rest.1, mkNewBook d :: rest.2)
      | errs => ((i, errs) :: rest.1, rest.2)

/-- JSON rendering of one bulk validation failure entry holding the index
of the failing item and its field errors. -/
def bulkErrJ (e : Nat × List (List Char × List (List Char))) : J :=
  .obj [("index".data, jNat e.1),
        ("errors".data, .obj (e.2.map (fun fe => (fe.1, .arr (fe.2.map J.str)))))]

/-- Success message interpolating the created count between the words
"Successfully created" and "books". -/
def bulkOkMessage (n : Nat) : List Char :=
  "Successfully created ".data ++ (Nat.repr n).data ++ " books".data

/-- BulkBookOperations.post after the books list is taken from the payload
envelope: if any item
failed validation the whole request is answered 400 with the per-item error
list and nothing is written; otherwise all rows are persisted in one batch
(bulk_save_objects, which does not refresh the in-memory objects' ids) and
the 201 data dumps those unrefreshed objects. This handler performs no cache
access in app.py. -/
def bulkCreate (st : Store) (items : List J) : (J × Nat) × Store :=
  let scanned := bulkScan 0 items
  if scanned.1.isEmpty then
    ((.obj [("status".data, .str "success".data),
            ("message".data, .str (bulkOkMessage scanned.2.length)),
            ("data".data, .arr (scanned.2.map (fun nb => dumpJ (dumpNew nb))))], 201),
     st.bulkSave scanned.2)
  else
    ((.obj [("status".data, .str "error".data),
            ("message".data, .str "Validation errors occurred".data),
            ("errors".data, .arr (scanned.1.map bulkErrJ))], 400),
     st)

/-- Store with no rows, as after db.create_all. -/
def emptyStore : Store := { nextId := 1, rows := [] }

/-- Valid create payload with title T and author A. -/
def validPayloadT : J :=
  .obj [("title".data, .str "T".data), ("author".data, .str "A".data)]

/-- Partial update payload carrying only the author field. -/
def payloadAuthorNew : J := .obj [("author".data, .str "New".data)]

/-- A stored book used by the update scenarios. -/
def bookOld : PBook := ⟨1, "Old".data, "OldA".data, none, none⟩

/-- Store holding only bookOld. -/
def stOld : Store := { nextId := 2, rows := [bookOld] }

/-- Full update payload passing the schema (title and author present). -/
def updateFullPayload : J :=
  .obj [("title".data, .str "NewT".data), ("author".data, .str "NewA".data)]

/-- First of two distinct stored books. -/
def book1 : PBook := ⟨1, "One".data, "A1".data, none, none⟩

/-- Second of two distinct stored books. -/
def book2 : PBook := ⟨2, "Two".data, "A2".data, none, none⟩

/-- Store holding book1 and book2. -/
def st12 : Store := { nextId := 3, rows := [book1, book2] }

/-- Book whose title is axb: it contains no percent sign, yet the ILIKE
pattern built from the query a%b matches it. -/
def bookAxb : PBook := ⟨1, "axb".data, "zz".data, none, none⟩

/-- Book titled Tom, used to witness the wildcard-free search theorem. -/
def bookTom : PBook := ⟨1, "Tom".data, "X".data, none, some "s".data⟩

/-- Bulk item failing validation: its title has length 0. -/
def invalidItem : J := .obj [("title".data, .str []), ("author".data, .str "A".data)]

/-- Valid create payload carrying an extra field unknown to the schema. -/
def payloadExtra : J :=
  .obj [("title".data, .str "T".data), ("author".data, .str "A".data),
        ("extra".data, .str "x".data)]

/-- Unfolding equation of likeMatch on the empty pattern. -/
theorem likeMatch_nil (s : List Char) : likeMatch [] s = s.isEmpty := by
  rw [likeMatch.eq_def]

/-- Unfolding equation of likeMatch on a pattern starting with the percent
wildcard. -/
theorem likeMatch_pct (ps s : List Char) :
    likeMatch ('%' :: ps) s =
      (likeMatch ps s ||
        match s with
        | [] => false
        | _ :: s' => likeMatch ('%' :: ps) s') := by
  rw [likeMatch.eq_def]
  rfl

/-- Unfolding equation of likeMatch on a pattern starting with a character
other than the percent wildcard. -/
theorem likeMatch_lit (c : Char) (hc : c ≠ '%') (ps s : List Char) :
    likeMatch (c :: ps) s =
      (match s with
       | [] => false
       | d :: s' => (c == '_' || c.toLower == d.toLower) && likeMatch ps s') := by
  rw [likeMatch.eq_def]
  simp only [if_neg hc]

/-- A wildcard-free pattern followed by a trailing percent matches exactly
the strings it case-insensitively prefixes. -/
theorem likeMatch_nowild (q : List Char) (hq1 : '%' ∉ q) (hq2 : '_' ∉ q) :
    ∀ s, likeMatch (q ++ ['%']) s = isSubAt q s := by
  induction q with
  | nil =>
    intro s
    induction s with
    | nil => simp [likeMatch_pct, likeMatch_nil, isSubAt]
    | cons d s' ih =>
      rw [List.nil_append] at ih ⊢
      rw [likeMatch_pct]
      simp [likeMatch_nil, isSubAt, ih]
  | cons c q' ih =>
    intro s
    have hc1 : c ≠ '%' := fun h => hq1 (h ▸ List.mem_cons_self c q')
    have hc2 : c ≠ '_' := fun h => hq2 (h ▸ List.mem_cons_self c q')
    have ih' := ih (fun h => hq1 (List.mem_cons_of_mem _ h))
      (fun h => hq2 (List.mem_cons_of_mem _ h))
    cases s with
    | nil => rw [List.cons_append, likeMatch_lit c hc1]; rfl
    | cons d s' =>
      rw [List.cons_append, likeMatch_lit c hc1]
      simp only [isSubAt, ih']
      have : (c == '_') = false := by
        simp [hc2]
      simp [this]

/-- For a wildcard-free query, the ILIKE pattern percent-q-percent matches
exactly the strings containing q as a case-insensitive substring. -/
theorem likeMatch_sub (q : List Char) (hq1 : '%' ∉ q) (hq2 : '_' ∉ q) :
    ∀ s, likeMatch ('%' :: (q ++ ['%'])) s = ciContains s q := by
  intro s
  induction s with
  | nil =>
    rw [likeMatch_pct, likeMatch_nowild q hq1 hq2]
    simp [ciContains]
  | cons d s' ih =>
    rw [likeMatch_pct, likeMatch_nowild q hq1 hq2]
    simp only [ciContains]
    rw [ih]

/-- The error side of bulkScan enumerates, in order, the index of every
failing item together with its validation errors. -/
theorem bulkScan_fst (k : Nat) (items : List J) :
    (bulkScan k items).1 = (items.enumFrom k).filterMap
      (fun pr => match validateBook pr.2 with
                 | [] => none
                 | errs => some (pr.1, errs)) := by
  induction items generalizing k with
  | nil => simp [bulkScan]
  | cons d ds ih =>
    simp only [bulkScan, List.enumFrom, List.filterMap_cons]
    cases h : validateBook d with
    | nil => simp [h, ih]
    | cons e es => simp [h, ih]

/-- The object side of bulkScan builds an in-memory Book from exactly the
valid items, in order. -/
theorem bulkScan_snd (k : Nat) (items : List J) :
    (bulkScan k items).2 =
      (items.filter (fun d => (validateBook d).isEmpty)).map mkNewBook := by
  induction items generalizing k with
  | nil => simp [bulkScan]
  | cons d ds ih =>
    simp only [bulkScan, List.filter_cons]
    cases h : validateBook d with
    | nil => simp [h, ih]
    | cons e es => simp [h, ih]

/-- No bulk validation errors are collected exactly when every item is
valid. -/
theorem bulkScan_fst_nil_iff (k : Nat) (items : List J) :
    (bulkScan k items).1 = [] ↔ ∀ d ∈ items, validateBook d = [] := by
  induction items generalizing k with
  | nil => simp [bulkScan]
  | cons d ds ih =>
    simp only [bulkScan]
    cases h : validateBook d with
    | nil => simp [h, ih]
    | cons e es => simp [h]

/-- Sorted insertion grows the list by one. -/
theorem length_insertRow (le : PBook → PBook → Bool) (b : PBook) (l : List PBook) :
    (insertRow le b l).length = l.length + 1 := by
  induction l with
  | nil => rfl
  | cons c cs ih =>
    unfold insertRow
    split
    · rfl
    · simp [ih]

/-- Sorting preserves length. -/
theorem length_sortRows (le : PBook → PBook → Bool) (l : List PBook) :
    (sortRows le l).length = l.length := by
  induction l with
  | nil => rfl
  | cons b bs ih => simp [sortRows, length_insertRow, ih]

/-- The sort stage of the list handler preserves the row count. -/
theorem length_sortedRows (rows : List PBook) (p : ListParams) :
    (sortedRows rows p).length = rows.length := by
  unfold sortedRows
  cases p.sort with
  | none => rfl
  | some f => simp [length_sortRows]

/-- The ceiling page count times the page size covers the total count. -/
theorem ceil_le_mul (L pp : Nat) (hpp : 0 < pp) : L ≤ ((L + pp - 1) / pp) * pp := by
  rcases Nat.eq_zero_or_pos L with h0 | hL
  · simp [h0]
  · have hL1 : L + pp - 1 = (L - 1) + pp := by omega
    rw [hL1, Nat.add_div_right _ hpp]
    have h1 := Nat.div_add_mod (L - 1) pp
    have h2 := Nat.mod_lt (L - 1) hpp
    have h3 : L ≤ pp * ((L - 1) / pp) + pp := by
      have hr : (L - 1) % pp + 1 ≤ pp := h2
      calc L = pp * ((L - 1) / pp) + ((L - 1) % pp + 1) := by omega
      _ ≤ pp * ((L - 1) / pp) + pp := Nat.add_le_add_left hr _
    calc L ≤ pp * ((L - 1) / pp) + pp := h3
    _ = ((L - 1) / pp + 1) * pp := by ring

/-- All pages before the last one lie strictly below the total count. -/
theorem pred_mul_lt (L pp : Nat) (hpp : 0 < pp) (hL : 0 < L) :
    (((L + pp - 1) / pp) - 1) * pp < L := by
  have hL1 : L + pp - 1 = (L - 1) + pp := by omega
  rw [hL1, Nat.add_div_right _ hpp]
  simp only [Nat.add_sub_cancel]
  have h := Nat.div_mul_le_self (L - 1) pp
  omega

/-- Claim C1: the claim states that get, update and delete on an id absent
from the store fail with NotFound reported as HTTP 404. The code instead
catches the NotFound raised by get_or_404 in each handler with a blanket
except clause and re-raises ValidationError whose status code is 400, so
all three handlers answer 400 on an unknown id, never 404 (the error body
carries the stringified NotFound message). -/
theorem claim_C1_missing_id_answered_400 :
    (getBookCached emptyStore [] 7).1.2 = 400 ∧
    (getBookCached emptyStore [] 7).1.1 = errorEnvelope notFoundMessage ∧
    (getBookCached emptyStore [] 7).1.2 ≠ 404 ∧
    (updateBook emptyStore [] 7 payloadAuthorNew).1.2 = 400 ∧
    (deleteBook emptyStore [] 7).1.2 = 400 :=
  ⟨rfl, rfl, by decide, rfl, rfl⟩

/-- Claim C2: the claim states that an update payload supplying only a
subset of the fields succeeds with 200, changing only the supplied fields.
The code validates the payload with the full schema (no partial flag), so a
payload carrying only author fails with the missing-required-title error
and the handler answers 400, leaving the book unchanged. -/
theorem claim_C2_partial_update_rejected_400 :
    (updateBook stOld [] 1 payloadAuthorNew).1.2 = 400 ∧
    (updateBook stOld [] 1 payloadAuthorNew).2.1 = stOld ∧
    validateBook payloadAuthorNew = [("title".data, [msgRequired])] :=
  ⟨rfl, by decide, by decide⟩

/-- Claim C3: the claim states that every successful create invalidates the
list-key cache family and every successful update or delete invalidates the
singular key and the list-key family. In the code the create handler
performs no cache access at all, and update and delete only delete the keys
"book" + id and "books", neither of which is a key the caching decorators
store under: a list response cached before a create is returned verbatim
after it, and after an update both the list entry and the singular entry
are still present. -/
theorem claim_C3_stale_cache_after_write :
    (listCached (createBook emptyStore validPayloadT).2 (listCached emptyStore [] {}).2 {}).1
      = (listCached emptyStore [] {}).1 ∧
    (listCached emptyStore [] {}).1.1 = listResultJ (listCore [] {}) ∧
    (listCore [] ({} : ListParams)).total_items = 0 ∧
    (createBook emptyStore validPayloadT).2.rows.length = 1 ∧
    (cacheGet (updateBook stOld (listCached stOld [] {}).2 1 updateFullPayload).2.2
        (listCacheKey {}) = some (listCached stOld [] {}).1) ∧
    (cacheGet (updateBook stOld (getBookCached stOld [] 1).2 1 updateFullPayload).2.2
        (singleBookCacheKey 1) = some (getBookCached stOld [] 1).1) :=
  ⟨rfl, rfl, rfl, rfl, rfl, rfl⟩

/-- Claim C4: the claim states that single-book responses are cached under a
per-id key, so a lookup of one id never returns the cached payload of a
different id. The code passes a constant key_prefix to the caching
decorator, which therefore uses the literal key "book" for every id: with
books 1 and 2 stored, fetching book 1 and then book 2 within the TTL
returns book 1's payload for the book 2 request. -/
theorem claim_C4_shared_single_book_cache_key :
    (getBookCached st12 (getBookCached st12 [] 1).2 2).1 = (getBookCached st12 [] 1).1 ∧
    (getBookCached st12 [] 1).1
      = (.obj [("status".data, .str "success".data), ("data".data, dumpJ (dumpP book1))], 200) :=
  ⟨rfl, rfl⟩

/-- Claim C5 counterexample: the claim states that every error response has
the uniform single-key envelope with key "error", in particular the 400 of
bulk-create validation failure. The bulk-create validation failure is
returned directly by the handler with top-level keys status, message and
errors, and no "error" key at all. -/
theorem claim_C5_bulk_error_shape_cex :
    (bulkCreate emptyStore [invalidItem]).1.2 = 400 ∧
    J.keys (bulkCreate emptyStore [invalidItem]).1.1 =
      ["status".data, "message".data, "errors".data] ∧
    "error".data ∉ J.keys (bulkCreate emptyStore [invalidItem]).1.1 :=
  ⟨rfl, rfl, by decide⟩

/-- Claim C5 (amended): errors raised as exceptions are produced by the one
translator and have the single-key envelope with key "error" — shown here
for single-create validation failure — but the 400 response of bulk-create
validation failure is returned directly by the handler with top-level keys
status, message and errors and no "error" key. -/
theorem claim_C5_error_envelope_amended :
    (∀ st p, validateBook p ≠ [] →
      (createBook st p).1 = (errorEnvelope (strOfErrors (validateBook p)), 400)) ∧
    (∀ st items, (bulkScan 0 items).1 ≠ [] →
      (bulkCreate st items).1.2 = 400 ∧
      J.keys (bulkCreate st items).1.1 =
        ["status".data, "message".data, "errors".data] ∧
      "error".data ∉ J.keys (bulkCreate st items).1.1) := by
  constructor
  · intro st p hne
    unfold createBook createCore
    cases h : validateBook p with
    | nil => exact absurd h hne
    | cons e es => rfl
  · intro st items hne
    rcases hsc : bulkScan 0 items with ⟨errs, nbs⟩
    rw [hsc] at hne
    simp only at hne
    cases errs with
    | nil => exact absurd rfl hne
    | cons e es =>
      refine ⟨?_, ?_, ?_⟩
      · simp [bulkCreate, hsc]
      · simp [bulkCreate, hsc, J.keys]
      · simp [bulkCreate, hsc, J.keys]

/-- Claim C5 witness: the amended theorem applied to a concrete failing
create payload and a concrete failing bulk payload. -/
theorem claim_C5_error_envelope_witness :
    (createBook emptyStore invalidItem).1 =
      (errorEnvelope (strOfErrors (validateBook invalidItem)), 400) ∧
    (bulkCreate emptyStore [invalidItem]).1.2 = 400 :=
  ⟨claim_C5_error_envelope_amended.1 emptyStore invalidItem (by decide),
   (claim_C5_error_envelope_amended.2 emptyStore [invalidItem] (by decide)).1⟩

/-- Claim C6: if any bulk-create item fails validation the whole operation
answers 400 with the enumerated per-item indices and field errors and the
store is unchanged; if every item is valid, the response is 201 and all
items are persisted with consecutive assigned ids. -/
theorem claim_C6_bulk_all_or_nothing (st : Store) (items : List J) :
    ((bulkScan 0 items).1 ≠ [] →
       bulkCreate st items =
         ((.obj [("status".data, .str "error".data),
                 ("message".data, .str "Validation errors occurred".data),
                 ("errors".data, .arr ((bulkScan 0 items).1.map bulkErrJ))], 400), st)) ∧
    ((bulkScan 0 items).1 = [] →
       (bulkCreate st items).1.2 = 201 ∧
       (bulkCreate st items).2.rows = st.rows ++ assignIds st.nextId (items.map mkNewBook)) ∧
    (bulkScan 0 items).1 = items.enum.filterMap
      (fun pr => match validateBook pr.2 with
                 | [] => none
                 | errs => some (pr.1, errs)) ∧
    ((bulkScan 0 items).1 = [] ↔ ∀ d ∈ items, validateBook d = []) := by
  refine ⟨?_, ?_, bulkScan_fst 0 items, bulkScan_fst_nil_iff 0 items⟩
  · intro hne
    rcases hsc : bulkScan 0 items with ⟨errs, nbs⟩
    rw [hsc] at hne
    simp only at hne
    cases errs with
    | nil => exact absurd rfl hne
    | cons e es => simp [bulkCreate, hsc]
  · intro hnil
    have hall := (bulkScan_fst_nil_iff 0 items).mp hnil
    have hsnd : (bulkScan 0 items).2 = items.map mkNewBook := by
      rw [bulkScan_snd]
      congr 1
      rw [List.filter_eq_self.mpr]
      intro a ha
      rw [List.isEmpty_eq_true]
      exact hall a ha
    rcases hsc : bulkScan 0 items with ⟨errs, nbs⟩
    rw [hsc] at hnil hsnd
    simp only at hnil hsnd
    subst hnil hsnd
    simp [bulkCreate, hsc, Store.bulkSave]

/-- Claim C6 witness: a bulk payload with an invalid item persists nothing,
and an all-valid one persists every item. -/
theorem claim_C6_bulk_all_or_nothing_witness :
    (bulkCreate emptyStore [validPayloadT, invalidItem]).2 = emptyStore ∧
    (bulkCreate emptyStore [validPayloadT]).1.2 = 201 ∧
    (bulkCreate emptyStore [validPayloadT]).2.rows =
      emptyStore.rows ++ assignIds emptyStore.nextId ([validPayloadT].map mkNewBook) := by
  have h1 := (claim_C6_bulk_all_or_nothing emptyStore [validPayloadT, invalidItem]).1 (by decide)
  have h2 := (claim_C6_bulk_all_or_nothing emptyStore [validPayloadT]).2.1 (by decide)
  exact ⟨by rw [h1], h2.1, h2.2⟩

/-- Claim C7: for positive page and per_page the list operation reports
total_items equal to the full filtered count, total_pages behaving as the
ceiling of total_items divided by per_page (zero when the filter result is
empty), and an out-of-range page yields an empty item list rather than an
error. -/
theorem claim_C7_pagination_out_of_range (rows : List PBook) (p : ListParams)
    (hpage : 0 < p.page) (hpp : 0 < p.per_page) :
    (listCore rows p).total_items = (filteredRows rows p).length ∧
    (listCore rows p).total_items ≤ (listCore rows p).total_pages * p.per_page ∧
    ((listCore rows p).total_pages ≠ 0 →
      ((listCore rows p).total_pages - 1) * p.per_page < (listCore rows p).total_items) ∧
    ((listCore rows p).total_items = 0 → (listCore rows p).total_pages = 0) ∧
    ((listCore rows p).total_pages < p.page → (listCore rows p).data = []) := by
  have hti : (listCore rows p).total_items = (filteredRows rows p).length := by
    simp [listCore, paginate, length_sortedRows]
  have htp : (listCore rows p).total_pages =
      ((filteredRows rows p).length + p.per_page - 1) / p.per_page := by
    simp [listCore, paginate, length_sortedRows]
  refine ⟨hti, ?_, ?_, ?_, ?_⟩
  · rw [hti, htp]
    exact ceil_le_mul _ _ hpp
  · intro hne
    rw [hti, htp]
    rw [htp] at hne
    rcases Nat.eq_zero_or_pos (filteredRows rows p).length with h0 | hL
    · rw [h0] at hne
      have : (0 + p.per_page - 1) / p.per_page = 0 :=
        Nat.div_eq_of_lt (by omega)
      exact absurd this hne
    · exact pred_mul_lt _ _ hpp hL
  · intro h0
    rw [hti] at h0
    rw [htp, h0]
    exact Nat.div_eq_of_lt (by omega)
  · intro hlt
    rw [htp] at hlt
    have hdrop : (filteredRows rows p).length ≤ (p.page - 1) * p.per_page := by
      have h1 : ((filteredRows rows p).length + p.per_page - 1) / p.per_page ≤ p.page - 1 := by
        omega
      calc (filteredRows rows p).length
          ≤ (((filteredRows rows p).length + p.per_page - 1) / p.per_page) * p.per_page :=
            ceil_le_mul _ _ hpp
      _ ≤ (p.page - 1) * p.per_page := Nat.mul_le_mul_right _ h1
    show ((((sortedRows (filteredRows rows p) p).drop ((p.page - 1) * p.per_page)).take p.per_page).map dumpP) = []
    rw [List.drop_eq_nil_of_le (by rw [length_sortedRows]; exact hdrop)]
    simp

/-- Claim C7 witness: a one-row store asked for page 5 of size 10 yields an
empty page while still reporting one total item. -/
theorem claim_C7_pagination_witness :
    (listCore [book1] { page := 5 }).data = [] ∧
    (listCore [book1] { page := 5 }).total_items = 1 := by
  have h := claim_C7_pagination_out_of_range [book1] { page := 5 } (by decide) (by decide)
  exact ⟨h.2.2.2.2 (by decide), h.1.trans (by decide)⟩

/-- Claim C8 counterexample: the claim states the search returns exactly the
records containing q as a case-insensitive substring for every q, including
when q contains percent or underscore. With the query a%b, the book titled
axb is matched by the search although a%b is not a substring of any of its
fields: the percent in q acts as an ILIKE wildcard. -/
theorem claim_C8_wildcard_query_cex :
    searchMatch "a%b".data bookAxb = true ∧
    ciContains bookAxb.title "a%b".data = false ∧
    ciContains bookAxb.author "a%b".data = false ∧
    bookAxb.summary = none := by
  have h1 : likeMatch ['%'] ([] : List Char) = true := by
    rw [likeMatch_pct, likeMatch_nil]
    rfl
  have h2 : likeMatch ['b', '%'] ['b'] = true := by
    rw [likeMatch_lit 'b' (by decide)]
    show (('b' == '_' || 'b'.toLower == 'b'.toLower) && likeMatch ['%'] []) = true
    rw [h1]
    decide
  have h3 : likeMatch ['%', 'b', '%'] ['b'] = true := by
    rw [likeMatch_pct, h2]
    simp
  have h4 : likeMatch ['%', 'b', '%'] ['x', 'b'] = true := by
    rw [likeMatch_pct]
    show (likeMatch ['b', '%'] ['x', 'b'] || likeMatch ['%', 'b', '%'] ['b']) = true
    rw [h3]
    simp
  have h5 : likeMatch ['a', '%', 'b', '%'] ['a', 'x', 'b'] = true := by
    rw [likeMatch_lit 'a' (by decide)]
    show (('a' == '_' || 'a'.toLower == 'a'.toLower) && likeMatch ['%', 'b', '%'] ['x', 'b']) = true
    rw [h4]
    decide
  have h6 : likeMatch ['%', 'a', '%', 'b', '%'] ['a', 'x', 'b'] = true := by
    rw [likeMatch_pct, h5]
    simp
  refine ⟨?_, by decide, by decide, rfl⟩
  show ((likeMatch ['%', 'a', '%', 'b', '%'] ['a', 'x', 'b'] ||
         likeMatch ['%', 'a', '%', 'b', '%'] ['z', 'z']) || false) = true
  rw [h6]
  simp

/-- Claim C8 (amended): when q contains neither percent nor underscore, the
search selects exactly the records whose title, author or summary contains
q as a case-insensitive substring; when q contains such characters they act
as ILIKE wildcards instead of literal characters. -/
theorem claim_C8_search_no_wildcards_amended (q : List Char) (b : PBook)
    (h1 : '%' ∉ q) (h2 : '_' ∉ q) :
    searchMatch q b =
      (ciContains b.title q || ciContains b.author q ||
        (match b.summary with
         | some s => ciContains s q
         | none => false)) := by
  cases hs : b.summary with
  | none =>
    simp only [searchMatch, colIlike, hs, List.cons_append]
    rw [likeMatch_sub q h1 h2, likeMatch_sub q h1 h2]
  | some s =>
    simp only [searchMatch, colIlike, hs, List.cons_append]
    rw [likeMatch_sub q h1 h2, likeMatch_sub q h1 h2, likeMatch_sub q h1 h2]

/-- Claim C8 witness: the amended theorem applied to the wildcard-free query
tom against the book titled Tom, which the substring semantics accepts. -/
theorem claim_C8_search_witness :
    searchMatch "tom".data bookTom =
      (ciContains bookTom.title "tom".data || ciContains bookTom.author "tom".data ||
        (match bookTom.summary with
         | some s => ciContains s "tom".data
         | none => false)) ∧
    ciContains bookTom.title "tom".data = true :=
  ⟨claim_C8_search_no_wildcards_amended "tom".data bookTom (by decide) (by decide),
   by decide⟩

/-- Claim C9 counterexample: the claim states that unknown fields are
ignored, so a create payload with an extra unknown field passes validation
and succeeds. Under marshmallow 3 default settings the extra field yields
an unknown-field error, so the create is rejected with 400 and the store is
unchanged. -/
theorem claim_C9_unknown_field_cex :
    validateBook payloadExtra = [("extra".data, [msgUnknown])] ∧
    (createBook emptyStore payloadExtra).1.2 = 400 ∧
    (createBook emptyStore payloadExtra).2 = emptyStore :=
  ⟨by decide, rfl, by decide⟩

/-- Claim C9 (amended): validation always returns a result (it is a total
function returning either no errors or a structured per-field error list),
but unknown fields are not ignored: every payload key outside the schema
yields an unknown-field error for that key, so a create payload carrying an
extra unknown field is rejected with 400 and nothing is persisted. -/
theorem claim_C9_unknown_fields_amended (fs : List (List Char × J)) (k : List Char) (v : J)
    (hk : k ∉ loadFieldNames) (hmem : (k, v) ∈ fs) :
    (k, [msgUnknown]) ∈ validateBook (.obj fs) ∧
    validateBook (.obj fs) ≠ [] ∧
    ∀ st, (createBook st (.obj fs)).1.2 = 400 ∧ (createBook st (.obj fs)).2 = st := by
  have hu : (k, [msgUnknown]) ∈ unknownErrs fs := by
    unfold unknownErrs
    exact List.mem_map_of_mem _ (List.mem_filter.mpr ⟨hmem, by simp [hk]⟩)
  have hmem2 : (k, [msgUnknown]) ∈ validateBook (.obj fs) := by
    unfold validateBook
    exact List.mem_append_right _ hu
  refine ⟨hmem2, ?_, ?_⟩
  · intro h
    rw [h] at hmem2
    exact absurd hmem2 (List.not_mem_nil _)
  · intro st
    unfold createBook createCore
    cases h : validateBook (.obj fs) with
    | nil =>
      rw [h] at hmem2
      exact absurd hmem2 (List.not_mem_nil _)
    | cons e es => exact ⟨rfl, rfl⟩

/-- Claim C9 witness: the amended theorem applied to the concrete payload
with the extra unknown field. -/
theorem claim_C9_unknown_fields_witness :
    ("extra".data, [msgUnknown]) ∈ validateBook payloadExtra ∧
    (createBook emptyStore payloadExtra).1.2 = 400 := by
  have h := claim_C9_unknown_fields_amended
    [("title".data, .str "T".data), ("author".data, .str "A".data),
     ("extra".data, .str "x".data)]
    "extra".data (.str "x".data) (by decide)
    (List.Mem.tail _ (List.Mem.tail _ (List.Mem.head _)))
  exact ⟨h.1, (h.2.2 emptyStore).1⟩

/-- Claim C10: after a successful bulk-create the 201 data array dumps the
in-memory objects bulk_save_objects never refreshed, so every item carries
no id even though the store assigned consecutive ids to the persisted rows;
a successful single create dumps the committed row, whose id is the one the
store assigned. -/
theorem claim_C10_bulk_ids_absent (st : Store) (items : List J) (p : J)
    (hall : ∀ d ∈ items, validateBook d = []) (hp : validateBook p = []) :
    ((bulkCreate st items).1.2 = 201 ∧
     (bulkCreate st items).1.1 =
       .obj [("status".data, .str "success".data),
             ("message".data, .str (bulkOkMessage items.length)),
             ("data".data, .arr (items.map (fun d => dumpJ (dumpNew (mkNewBook d)))))] ∧
     (∀ d, (dumpNew (mkNewBook d)).id = none) ∧
     (bulkCreate st items).2.rows = st.rows ++ assignIds st.nextId (items.map mkNewBook)) ∧
    (∃ d st', createCore st p = .ok (d, st') ∧ d.id = some st.nextId) := by
  have hnil : (bulkScan 0 items).1 = [] := (bulkScan_fst_nil_iff 0 items).mpr hall
  have hsnd : (bulkScan 0 items).2 = items.map mkNewBook := by
    rw [bulkScan_snd]
    congr 1
    rw [List.filter_eq_self.mpr]
    intro a ha
    rw [List.isEmpty_eq_true]
    exact hall a ha
  constructor
  · rcases hsc : bulkScan 0 items with ⟨errs, nbs⟩
    rw [hsc] at hnil hsnd
    simp only at hnil hsnd
    subst hnil hsnd
    refine ⟨by simp [bulkCreate, hsc], ?_, fun d => rfl, by simp [bulkCreate, hsc, Store.bulkSave]⟩
    simp [bulkCreate, hsc, List.map_map]
  · unfold createCore
    rw [hp]
    exact ⟨_, _, rfl, rfl⟩

/-- Claim C10 witness: the theorem applied to one concrete valid payload
used both as the bulk list and as the single create payload. -/
theorem claim_C10_bulk_ids_absent_witness :
    (bulkCreate emptyStore [validPayloadT]).1.2 = 201 ∧
    (∃ d st', createCore emptyStore validPayloadT = .ok (d, st') ∧
      d.id = some emptyStore.nextId) := by
  have h := claim_C10_bulk_ids_absent emptyStore [validPayloadT] validPayloadT
    (by decide) (by decide)
  exact ⟨h.1.1, h.2⟩

end BookManager
